import Mathlib

/-!
Shallow embedding of the task-man-cqrs command/query core: the generic filter
construction and paginated-query handler (`application/queries/base_queries.py`),
the workspace commands (`application/commands/workspace_commands.py`), the team
commands (`application/commands/team_commands.py`), and the field validators of
the entity models (`domain/models/workspaces.py`, `domain/models/team.py`,
`domain/models/workspace.py`).  Identifiers and timestamps are naturals, JSON
dicts are association lists, Python exceptions are an enumerated kind, and each
database session interaction is made explicit.  Where the source calls an
attribute that does not exist, or constructs an exception in a way the
interpreter rejects, the embedding models the `AttributeError`/`TypeError` the
interpreter raises at that point rather than the unreachable code after it.
-/

namespace TaskMan

/-- Python exception classes that flow through the command/query layer.
`saIntegrityError` and `saOperationalError` stand for `sqlalchemy.exc.IntegrityError`
and another subclass of `sqlalchemy.exc.SQLAlchemyError`; `sqlite3IntegrityError` is
the unrelated class `sqlite3.IntegrityError`.  The remaining constructors are the
domain exceptions of `domain/exceptions.py` plus Python's built-in `ValueError`,
`TypeError`, and `AttributeError` (the latter two are raised by the interpreter
itself: keyword arguments passed to a bare `Exception` subclass, and access to
an attribute an object does not have). -/
inductive PyExc where
  | valueError
  | typeError
  | attributeError
  | saIntegrityError
  | saOperationalError
  | sqlite3IntegrityError
  | workspaceNotFound
  | workspaceValidation
  | workspacePermission
  | notFoundException
  | databaseError
  deriving DecidableEq, Repr

/-- Instance test for `sqlalchemy.exc.SQLAlchemyError` (the class that
`except SQLAlchemyError` matches). -/
def isSQLAlchemyError : PyExc → Bool
  | PyExc.saIntegrityError => true
  | PyExc.saOperationalError => true
  | _ => false

/-- Python's `str.strip()` (for the ASCII whitespace that occurs here): drop
whitespace from both ends. -/
def pyStrip (s : String) : String :=
  ⟨((s.data.dropWhile Char.isWhitespace).reverse.dropWhile Char.isWhitespace).reverse⟩

/-- Python's `str.lower()` (ASCII range, which covers every string this code
compares). -/
def pyLower (s : String) : String :=
  ⟨s.data.map Char.toLower⟩

/-- Python's `str.endswith(post)`. -/
def pyEndsWith (s post : String) : Bool :=
  post.data.isSuffixOf s.data

/-- One step of Python's `str.replace`: scan left to right, substituting each
non-overlapping occurrence of the pattern.  The fuel argument bounds the
recursion by the length of the scanned list. -/
def pyReplaceAux (pat repl : List Char) : Nat → List Char → List Char
  | 0, cs => cs
  | _ + 1, [] => []
  | fuel + 1, c :: cs =>
    if pat.isPrefixOf (c :: cs) then
      repl ++ pyReplaceAux pat repl fuel (List.drop pat.length (c :: cs))
    else
      c :: pyReplaceAux pat repl fuel cs

/-- Python's `str.replace(pat, repl)` for a non-empty pattern (the only use in
this code replaces the literal `"_like"`). -/
def pyReplace (s pat repl : String) : String :=
  if pat.data = [] then s else ⟨pyReplaceAux pat.data repl.data s.data.length s.data⟩

/-- A non-`None` value carried by a filter field. -/
inductive FVal where
  | str (s : String)
  | nat (n : Nat)
  | boolean (b : Bool)
  deriving DecidableEq, Repr

/-- Whether the filter value is a Python `str` (the `isinstance(value, str)` test). -/
def FVal.isStr : FVal → Bool
  | FVal.str _ => true
  | _ => false

/-- A SQLAlchemy condition appended by `_build_filters`: either
`column.ilike(pattern)` (case-insensitive substring match once the `%` wildcards
are in place) or `column == value`. -/
inductive Cond where
  | ilike (field : String) (pattern : String)
  | equal (field : String) (value : FVal)
  deriving DecidableEq, Repr

/-- `BaseQueryHandler._build_filters` (base_queries.py:69-88).  The model is the
list of attribute names present on the entity class, the filter object is its
fields in declaration order with optional values.  A field contributes a
condition only when its value is not `None` and `hasattr(self.model, field)`
holds for the full field name.  A string value whose field name ends with
`_like` strips every occurrence of `_like` and takes
`getattr(self.model, field_name)` on the stripped name (base_queries.py:81):
when the stripped name is an attribute this yields `ilike("%value%")` on it,
and when it is not, `getattr` raises `AttributeError`, aborting the whole
construction with the conditions gathered so far discarded.  Any other value
yields plain equality on the full name (already known present). -/
def buildFilters (modelFields : List String) (filters : List (String × Option FVal)) :
    Except PyExc (List Cond) :=
  filters.foldlM (fun conds fv =>
    match fv with
    | (_, none) => Except.ok conds
    | (field, some v) =>
      if modelFields.contains field then
        match v with
        | FVal.str s =>
          if pyEndsWith field "_like" then
            if modelFields.contains (pyReplace field "_like" "") then
              Except.ok (conds ++ [Cond.ilike (pyReplace field "_like" "") ("%" ++ s ++ "%")])
            else Except.error PyExc.attributeError
          else
            Except.ok (conds ++ [Cond.equal field (FVal.str s)])
        | v => Except.ok (conds ++ [Cond.equal field v])
      else Except.ok conds) []

/-- The per-field outcome that `_build_filters` actually produces: presence is
tested on the full (unstripped) filter-field name, the fuzzy branch
additionally requires the value to be a string, and it raises `AttributeError`
when the `_like`-stripped name is absent from the model. -/
def fieldCond (modelFields : List String) : String × Option FVal → Except PyExc (Option Cond)
  | (_, none) => Except.ok none
  | (field, some v) =>
    if modelFields.contains field then
      match v with
      | FVal.str s =>
        if pyEndsWith field "_like" then
          if modelFields.contains (pyReplace field "_like" "") then
            Except.ok (some (Cond.ilike (pyReplace field "_like" "") ("%" ++ s ++ "%")))
          else Except.error PyExc.attributeError
        else
          Except.ok (some (Cond.equal field (FVal.str s)))
      | v => Except.ok (some (Cond.equal field v))
    else Except.ok none

/-- Sequential composition of per-field outcomes: conditions accumulate in
field order and the first raised exception aborts the rest, exactly like the
`for` loop of `_build_filters`. -/
def seqConds {β : Type} (g : β → Except PyExc (Option Cond)) :
    List β → Except PyExc (List Cond)
  | [] => Except.ok []
  | x :: rest =>
    match g x with
    | Except.error e => Except.error e
    | Except.ok c? =>
      match seqConds g rest with
      | Except.error e => Except.error e
      | Except.ok cs => Except.ok (c?.toList ++ cs)

/-- `PaginationParams` (base_queries.py:15-21). -/
structure PaginationParams where
  page : Nat := 1
  per_page : Nat := 20
  order_by : String := "created_at"
  order_direction : String := "desc"
  deriving DecidableEq, Repr

/-- `PaginatedResult` (base_queries.py:23-38). -/
structure PaginatedResult (α : Type) where
  items : List α
  total : Nat
  page : Nat
  per_page : Nat
  total_pages : Nat
  deriving DecidableEq, Repr

/-- `PaginatedResult.has_next` (base_queries.py:32-34). -/
def PaginatedResult.has_next {α : Type} (r : PaginatedResult α) : Bool :=
  decide (r.page < r.total_pages)

/-- `PaginatedResult.has_prev` (base_queries.py:36-38). -/
def PaginatedResult.has_prev {α : Type} (r : PaginatedResult α) : Bool :=
  decide (r.page > 1)

/-- `BaseQueryHandler.execute_paginated_query` (base_queries.py:112-163): run the
count query, then the page fetch, compute
`total_pages = (total + per_page - 1) // per_page`, and wrap everything in
`try/except SQLAlchemyError`, re-raising any such error as `DatabaseError`.
The two persistence-layer interactions enter as their outcomes (`countRes`,
`fetchRes`); an error outcome stands for the session raising at that point. -/
def executePaginatedQuery {α : Type} (countRes : Except PyExc Nat)
    (fetchRes : Except PyExc (List α)) (pagination : PaginationParams) :
    Except PyExc (PaginatedResult α) :=
  let body : Except PyExc (PaginatedResult α) := do
    let total ← countRes
    let items ← fetchRes
    pure ⟨items, total, pagination.page, pagination.per_page,
      (total + pagination.per_page - 1) / pagination.per_page⟩
  match body with
  | Except.error e =>
    if isSQLAlchemyError e then Except.error PyExc.databaseError else Except.error e
  | Except.ok r => Except.ok r

/-- The `Workspace` row of `domain/models/workspaces.py` (the module the workspace
commands import).  `id` is nullable because the column has no default: it holds a
value only when the code assigns one. -/
structure Workspace where
  id : Option Nat
  title : String
  settings : List (String × String)
  plan_type : String
  description : Option String
  is_completed : Bool
  created_at : Nat
  updated_at : Nat
  deriving DecidableEq, Repr

/-- `Workspace.validate_title` (workspaces.py:71-78): rejects falsy or blank
titles and titles over 255 characters, stores the stripped title. -/
def validateTitle (title : String) : Except PyExc String :=
  if title = "" ∨ pyStrip title = "" then Except.error PyExc.valueError
  else if title.length > 255 then Except.error PyExc.valueError
  else Except.ok (pyStrip title)

/-- `Workspace.validate_plan_type` (workspaces.py:80-86). -/
def validatePlanType (plan_type : String) : Except PyExc String :=
  if plan_type ∈ ["free", "basic", "pro", "enterprise"] then Except.ok plan_type
  else Except.error PyExc.valueError

/-- `Workspace.validate_description` (workspaces.py:88-93): `if description and
len(description) > 1000` rejects, a falsy description (`None` or `""`) is stored
as `None`, anything else is stripped. -/
def validateDescription (description : Option String) : Except PyExc (Option String) :=
  match description with
  | none => Except.ok none
  | some s =>
    if s ≠ "" ∧ s.length > 1000 then Except.error PyExc.valueError
    else if s = "" then Except.ok none
    else Except.ok (some (pyStrip s))

/-- The exception mapping of the `except` clauses shared by
`CreateWorkspaceCommand.execute` and `UpdateWorkspaceCommand.execute`
(workspace_commands.py:69-75 and 149-156): `ValueError` and
`sqlalchemy.exc.IntegrityError` become `WorkspaceValidationError` after
rollback; anything else propagates unchanged. -/
def mapWorkspaceExc : PyExc → PyExc
  | PyExc.valueError => PyExc.workspaceValidation
  | PyExc.saIntegrityError => PyExc.workspaceValidation
  | e => e

/-- `CreateWorkspaceCommand.execute` (workspace_commands.py:21-75).  `newId` is
the `uuid4()` value; `now1` and `now2` are the two successive
`datetime.now(timezone.utc)` readings used for `created_at` and `updated_at`.
Validators fire on construction in keyword order (title, description,
plan_type); flush and commit append the row. -/
def createWorkspaceCmd (db : List Workspace) (newId : Nat) (title : String)
    (description : Option String) (is_completed : Bool) (plan_type : String)
    (settings : Option (List (String × String))) (now1 now2 : Nat) :
    Except PyExc (List Workspace × Workspace) :=
  let body : Except PyExc Workspace := do
    let t ← validateTitle title
    let d ← validateDescription description
    let p ← validatePlanType plan_type
    pure { id := some newId, title := t, settings := settings.getD [],
           plan_type := p, description := d, is_completed := is_completed,
           created_at := now1, updated_at := now2 }
  match body with
  | Except.error e => Except.error (mapWorkspaceExc e)
  | Except.ok w => Except.ok (db ++ [w], w)

/-- One `setattr(workspace, "title", value)` step of the update loop, `none`
meaning the key is absent from `update_data`. -/
def setTitle (w : Workspace) : Option String → Except PyExc Workspace
  | none => Except.ok w
  | some t =>
    match validateTitle t with
    | Except.error e => Except.error e
    | Except.ok t' => Except.ok { w with title := t' }

/-- One `setattr(workspace, "description", value)` step of the update loop. -/
def setDescription (w : Workspace) : Option String → Except PyExc Workspace
  | none => Except.ok w
  | some d =>
    match validateDescription (some d) with
    | Except.error e => Except.error e
    | Except.ok d' => Except.ok { w with description := d' }

/-- One `setattr(workspace, "plan_type", value)` step of the update loop. -/
def setPlanType (w : Workspace) : Option String → Except PyExc Workspace
  | none => Except.ok w
  | some p =>
    match validatePlanType p with
    | Except.error e => Except.error e
    | Except.ok p' => Except.ok { w with plan_type := p' }

/-- The `settings` assignment of the update loop (no validator on this model). -/
def setSettings (w : Workspace) : Option (List (String × String)) → Workspace
  | none => w
  | some s => { w with settings := s }

/-- The `is_completed` assignment of the update loop (no validator). -/
def setCompletedFlag (w : Workspace) : Option Bool → Workspace
  | none => w
  | some b => { w with is_completed := b }

/-- The `setattr` loop of `UpdateWorkspaceCommand.execute`
(workspace_commands.py:137-139) over `update_data`, whose insertion order is
title, description, plan_type, settings, is_completed. -/
def applyWorkspaceUpdate (w0 : Workspace) (title description plan_type : Option String)
    (settings : Option (List (String × String))) (is_completed : Option Bool) :
    Except PyExc Workspace :=
  match setTitle w0 title with
  | Except.error e => Except.error e
  | Except.ok w1 =>
    match setDescription w1 description with
    | Except.error e => Except.error e
    | Except.ok w2 =>
      match setPlanType w2 plan_type with
      | Except.error e => Except.error e
      | Except.ok w3 => Except.ok (setCompletedFlag (setSettings w3 settings) is_completed)

/-- `UpdateWorkspaceCommand.execute` (workspace_commands.py:86-156).  A `none`
argument is a Python `None` parameter, which is left out of `update_data`;
`updated_at := now` is added to `update_data` exactly when it is non-empty.
The absent workspace raises `WorkspaceNotFoundError` (not caught by the
`except` clauses); validator errors are mapped by `mapWorkspaceExc`. -/
def updateWorkspaceCmd (db : List Workspace) (workspace_id : Nat)
    (title description plan_type : Option String)
    (settings : Option (List (String × String))) (is_completed : Option Bool)
    (now : Nat) : Except PyExc (List Workspace × Workspace) :=
  let hasUpdate := title.isSome || description.isSome || plan_type.isSome ||
    settings.isSome || is_completed.isSome
  match db.find? (fun w => w.id == some workspace_id) with
  | none => Except.error PyExc.workspaceNotFound
  | some w0 =>
    match applyWorkspaceUpdate w0 title description plan_type settings is_completed with
    | Except.error e => Except.error (mapWorkspaceExc e)
    | Except.ok w' =>
      let w2 := if hasUpdate then { w' with updated_at := now } else w'
      Except.ok (db.map (fun x => if x.id == some workspace_id then w2 else x), w2)

/-- A field of a PATCH request body: absent, explicitly `null`, or a value. -/
inductive PatchField (α : Type) where
  | unset
  | null
  | val (a : α)
  deriving DecidableEq, Repr

/-- `workspace_data.model_dump(exclude_unset=True)` composed with keyword
passing into the command (workspace_routes.py:220-224): an absent field is not
passed, so the command parameter keeps its `None` default, and an explicitly
`null` field is passed as `None` — both reach the command as `none`. -/
def PatchField.toArg {α : Type} : PatchField α → Option α
  | PatchField.unset => none
  | PatchField.null => none
  | PatchField.val a => some a

/-- The `update_workspace` route handler (workspace_routes.py:207-229) invoking
`UpdateWorkspaceCommand.execute` on the dumped request body. -/
def routeUpdateWorkspace (db : List Workspace) (workspace_id : Nat)
    (title description plan_type : PatchField String)
    (settings : PatchField (List (String × String))) (is_completed : PatchField Bool)
    (now : Nat) : Except PyExc (List Workspace × Workspace) :=
  updateWorkspaceCmd db workspace_id title.toArg description.toArg plan_type.toArg
    settings.toArg is_completed.toArg now

/-- The `Team` row of `domain/models/team.py`.  The `id` column is declared with
no Python-side or server-side default. -/
structure Team where
  id : Option Nat
  workspace_id : Nat
  owner_id : Nat
  name : String
  description : Option String
  settings : List (String × String)
  is_active : Bool
  created_at : Nat
  updated_at : Nat
  deriving DecidableEq, Repr

/-- The `TeamMember` row of `domain/models/team.py`; its `id` column likewise
has no default. -/
structure TeamMember where
  id : Option Nat
  team_id : Nat
  user_id : Nat
  role : String
  permissions : List (String × String)
  created_at : Nat
  updated_at : Nat
  deriving DecidableEq, Repr

/-- `Team.validate_name` (team.py:85-92): same shape as the workspace title
validator. -/
def validateTeamName (name : String) : Except PyExc String :=
  if name = "" ∨ pyStrip name = "" then Except.error PyExc.valueError
  else if name.length > 255 then Except.error PyExc.valueError
  else Except.ok (pyStrip name)

/-- `Team.validate_description` (team.py:94-99): same shape as the workspace
description validator. -/
def validateTeamDescription (description : Option String) : Except PyExc (Option String) :=
  match description with
  | none => Except.ok none
  | some s =>
    if s ≠ "" ∧ s.length > 1000 then Except.error PyExc.valueError
    else if s = "" then Except.ok none
    else Except.ok (some (pyStrip s))

/-- `TeamMember.validate_role` (team.py:181-189): blank roles are rejected,
otherwise the role is lowercased, stripped, and checked against
`VALID_ROLES = {admin, member, guest}`; the normalized form is stored. -/
def validateTeamRole (role : String) : Except PyExc String :=
  if role = "" ∨ pyStrip role = "" then Except.error PyExc.valueError
  else if pyStrip (pyLower role) ∈ ["admin", "member", "guest"] then
    Except.ok (pyStrip (pyLower role))
  else Except.error PyExc.valueError

/-- `WorkspaceMember.validate_role` (workspace.py:154-159): a bare membership
test against `VALID_ROLES = {owner, admin, member}`, with no normalization. -/
def validateWorkspaceRole (role : String) : Except PyExc String :=
  if role ∈ ["owner", "admin", "member"] then Except.ok role
  else Except.error PyExc.valueError

/-- `TeamCommands.create_team` (team_commands.py:23-45): builds `Team(...)`
without an `id`, adds and flushes, and returns the instance.  There is no
`try/except`, so a validator `ValueError` propagates raw.  `nowC` and `nowU`
are the column-default clock readings taken at flush. -/
def createTeamCmd (db : List Team) (workspace_id owner_id : Nat) (name : String)
    (description : Option String) (settings : Option (List (String × String)))
    (nowC nowU : Nat) : Except PyExc (List Team × Team) := do
  let n ← validateTeamName name
  let d ← validateTeamDescription description
  let team : Team :=
    { id := none, workspace_id := workspace_id, owner_id := owner_id,
      name := n, description := d, settings := settings.getD [], is_active := true,
      created_at := nowC, updated_at := nowU }
  pure (db ++ [team], team)

/-- `TeamCommands.update_team` (team_commands.py:47-73): its first statement is
`self._repository.get_by_id(session, team_id)`, but neither `TeamRepository`
nor `BaseRepository` defines a `get_by_id` method (base.py defines only
`create`, `get`, `get_all`, `update`, `delete`), so every invocation raises
`AttributeError` before any field is read or assigned.  The later assignment
sequence, including the unconditional `updated_at` stamp on line 70, is
unreachable. -/
def updateTeamCmd (db : List Team) (team_id : Nat) (name description : Option String)
    (settings : Option (List (String × String))) (is_active : Option Bool) (now : Nat) :
    Except PyExc (List Team × Team) :=
  Except.error PyExc.attributeError

/-- The body of `DeleteWorkspaceCommand.execute` (workspace_commands.py:244-268)
before its `except` clauses.  For an absent id, `_check_workspace_exists`
executes `raise WorkspaceNotFoundError(message=..., workspace_id=...)`
(workspace_commands.py:191-194) — but `WorkspaceNotFoundError` is a bare
`Exception` subclass that accepts no keyword arguments, so constructing it
raises `TypeError` instead.  `_check_deletion_allowed` raises
`WorkspacePermissionError` for a completed workspace unless `force` (built with
a positional argument, so it really is raised), and the delete/commit raises
`sqlalchemy.exc.IntegrityError` when a team still references the workspace
(`teams.workspace_id` foreign key).  The result is the post-state paired with
the raised exception, if any. -/
def deleteWorkspaceBody (ws : List Workspace) (teams : List Team) (workspace_id : Nat)
    (force : Bool) : (List Workspace × List Team) × Option PyExc :=
  match ws.find? (fun w => w.id == some workspace_id) with
  | none => ((ws, teams), some PyExc.typeError)
  | some w =>
    if force = false ∧ w.is_completed = true then
      ((ws, teams), some PyExc.workspacePermission)
    else if teams.any (fun t => t.workspace_id == workspace_id) then
      ((ws, teams), some PyExc.saIntegrityError)
    else
      ((ws.filter (fun x => !(x.id == some workspace_id)), teams), none)

/-- `DeleteWorkspaceCommand.execute` (workspace_commands.py:223-293): the
`except IntegrityError` clause (sqlalchemy's) rolls back and raises
`DatabaseError`; the `except Exception` clause rolls back and re-raises
unchanged. -/
def deleteWorkspaceCmd (ws : List Workspace) (teams : List Team) (workspace_id : Nat)
    (force : Bool) : (List Workspace × List Team) × Option PyExc :=
  match deleteWorkspaceBody ws teams workspace_id force with
  | (_, some PyExc.saIntegrityError) => ((ws, teams), some PyExc.databaseError)
  | (_, some e) => ((ws, teams), some e)
  | (st, none) => (st, none)

/-- The body of `TeamCommands.delete_team` (team_commands.py:82-102) before its
`except` clauses: its first statement calls the nonexistent
`self._repository.get_by_id` (team_commands.py:83), so it raises
`AttributeError` immediately — the not-found check and the DELETE that could
raise `sqlalchemy.exc.IntegrityError` from a remaining `team_members` row are
never reached, and the stores are untouched. -/
def deleteTeamBody (teams : List Team) (members : List TeamMember) (team_id : Nat) :
    (List Team × List TeamMember) × Option PyExc :=
  ((teams, members), some PyExc.attributeError)

/-- `TeamCommands.delete_team` (team_commands.py:75-121): its first `except`
clause catches `sqlite3.IntegrityError` — the class imported on line 1 — so only
that class is mapped to `DatabaseError`; every other exception, including
SQLAlchemy's `IntegrityError`, falls through to `except Exception`, which rolls
back and re-raises it unchanged. -/
def deleteTeamCmd (teams : List Team) (members : List TeamMember) (team_id : Nat)
    (force : Bool) : (List Team × List TeamMember) × Option PyExc :=
  match deleteTeamBody teams members team_id with
  | (_, some PyExc.sqlite3IntegrityError) => ((teams, members), some PyExc.databaseError)
  | (_, some e) => ((teams, members), some e)
  | (st, none) => (st, none)

/-- `TeamCommands.add_team_member` (team_commands.py:123-147): the team-exists
check calls the nonexistent `self._repository.get_by_id` (team_commands.py:133),
so every invocation raises `AttributeError` — with no `try/except` in the
method, it propagates; the `TeamMember(...)` construction (role validation,
flush) is unreachable. -/
def addTeamMember (teams : List Team) (members : List TeamMember) (team_id user_id : Nat)
    (role : String := "member") (permissions : Option (List (String × String)) := none)
    (nowC : Nat := 0) (nowU : Nat := 0) : Except PyExc (List TeamMember × TeamMember) :=
  Except.error PyExc.attributeError

/-- `TeamCommands.remove_team_member` (team_commands.py:172-212): the edge
lookup reads `self._repository.queries` (team_commands.py:191), an attribute
`TeamRepository` does not have, so every invocation raises `AttributeError`
before the `try` block — the not-found check and the deletion are
unreachable. -/
def removeTeamMember (members : List TeamMember) (team_id user_id : Nat) :
    Except PyExc (List TeamMember) :=
  Except.error PyExc.attributeError

/-- A successful title validation returns the stripped title. -/
theorem validateTitle_ok {t v : String} (h : validateTitle t = Except.ok v) :
    v = pyStrip t := by
  unfold validateTitle at h
  split at h
  · exact absurd h (by simp)
  · split at h
    · exact absurd h (by simp)
    · simpa using h.symm

/-- A successful description validation returns `None` for the empty string and
the stripped text otherwise. -/
theorem validateDescription_ok {s : String} {v : Option String}
    (h : validateDescription (some s) = Except.ok v) :
    v = if s = "" then none else some (pyStrip s) := by
  simp only [validateDescription] at h
  split at h
  · exact absurd h (by simp)
  · split at h
    · rename_i hs
      simp only [if_pos hs]
      simpa using h.symm
    · rename_i hs
      simp only [if_neg hs]
      simpa using h.symm

/-- A successful plan-type validation returns the input unchanged. -/
theorem validatePlanType_ok {p v : String} (h : validatePlanType p = Except.ok v) :
    v = p := by
  unfold validatePlanType at h
  split at h
  · simpa using h.symm
  · exact absurd h (by simp)

/-- Bind on a successful `Except` computation runs the continuation. -/
theorem except_bind_ok {α β : Type} (a : α) (f : α → Except PyExc β) :
    (Except.ok a >>= f) = f a := rfl

/-- Bind on a failed `Except` computation propagates the exception. -/
theorem except_bind_error {α β : Type} (e : PyExc) (f : α → Except PyExc β) :
    ((Except.error e : Except PyExc α) >>= f) = Except.error e := rfl

/-- A monadic fold whose step appends at most one condition, or raises, equals
the sequential per-element composition `seqConds` applied to the accumulator. -/
theorem foldlM_seqConds {β : Type} (g : β → Except PyExc (Option Cond))
    (f : List Cond → β → Except PyExc (List Cond))
    (hf : ∀ acc x, f acc x = match g x with
      | Except.error e => Except.error e
      | Except.ok c? => Except.ok (acc ++ c?.toList)) :
    ∀ (l : List β) (acc : List Cond),
      List.foldlM f acc l = match seqConds g l with
        | Except.error e => Except.error e
        | Except.ok cs => Except.ok (acc ++ cs) := by
  intro l
  induction l with
  | nil => intro acc; simp [seqConds, List.foldlM_nil]; rfl
  | cons x rest ih =>
    intro acc
    rw [List.foldlM_cons, hf]
    cases hg : g x with
    | error e => simp [seqConds, hg, except_bind_error]
    | ok c? =>
      simp only [hg, except_bind_ok]
      rw [ih]
      cases hrest : seqConds g rest with
      | error e => simp [seqConds, hg, hrest]
      | ok cs => simp [seqConds, hg, hrest, List.append_assoc]

/-- Natural ceiling division via `(N + P - 1) / P` agrees with the rational
ceiling of `N / P`. -/
theorem natCeilDivQ (N P : Nat) (hP : 0 < P) :
    (((N + P - 1) / P : Nat) : ℤ) = ⌈(N : ℚ) / (P : ℚ)⌉ := by
  have hPQ : (0 : ℚ) < (P : ℚ) := by exact_mod_cast hP
  have h1 : ((N + P - 1) / P) * P ≤ N + P - 1 := Nat.div_mul_le_self _ _
  have h2 : N + P - 1 < ((N + P - 1) / P + 1) * P :=
    (Nat.div_lt_iff_lt_mul hP).mp (Nat.lt_succ_self _)
  rw [Nat.add_mul, one_mul] at h2
  have hupper : N ≤ (N + P - 1) / P * P := by
    set M := (N + P - 1) / P * P with hM
    omega
  have hlower : (N + P - 1) / P * P < N + P := by
    set M := (N + P - 1) / P * P with hM
    omega
  symm
  rw [Int.ceil_eq_iff]
  constructor
  · rw [Int.cast_natCast, lt_div_iff₀ hPQ]
    have hq : (((N + P - 1) / P : Nat) : ℚ) * P < N + P := by exact_mod_cast hlower
    have hexp : ((((N + P - 1) / P : Nat) : ℚ) - 1) * (P : ℚ) =
        (((N + P - 1) / P : Nat) : ℚ) * P - P := by ring
    rw [hexp]
    linarith
  · rw [Int.cast_natCast, div_le_iff₀ hPQ]
    exact_mod_cast hupper

/-- Shape of a successful `title` assignment. -/
theorem setTitle_ok {w w' : Workspace} {t : Option String}
    (h : setTitle w t = Except.ok w') :
    w' = t.elim w (fun x => { w with title := pyStrip x }) := by
  cases t with
  | none => simpa [setTitle] using h.symm
  | some x =>
    simp only [setTitle] at h
    cases hv : validateTitle x with
    | error e => rw [hv] at h; exact absurd h (by simp)
    | ok v =>
      rw [hv] at h
      obtain rfl : ({ w with title := v } : Workspace) = w' := by simpa using h
      show ({ w with title := v } : Workspace) = { w with title := pyStrip x }
      rw [validateTitle_ok hv]

/-- Shape of a successful `description` assignment. -/
theorem setDescription_ok {w w' : Workspace} {d : Option String}
    (h : setDescription w d = Except.ok w') :
    w' = d.elim w
      (fun x => { w with description := if x = "" then none else some (pyStrip x) }) := by
  cases d with
  | none => simpa [setDescription] using h.symm
  | some x =>
    simp only [setDescription] at h
    cases hv : validateDescription (some x) with
    | error e => rw [hv] at h; exact absurd h (by simp)
    | ok v =>
      rw [hv] at h
      obtain rfl : ({ w with description := v } : Workspace) = w' := by simpa using h
      show ({ w with description := v } : Workspace) =
        { w with description := if x = "" then none else some (pyStrip x) }
      rw [validateDescription_ok hv]

/-- Shape of a successful `plan_type` assignment. -/
theorem setPlanType_ok {w w' : Workspace} {p : Option String}
    (h : setPlanType w p = Except.ok w') :
    w' = p.elim w (fun x => { w with plan_type := x }) := by
  cases p with
  | none => simpa [setPlanType] using h.symm
  | some x =>
    simp only [setPlanType] at h
    cases hv : validatePlanType x with
    | error e => rw [hv] at h; exact absurd h (by simp)
    | ok v =>
      rw [hv] at h
      obtain rfl : ({ w with plan_type := v } : Workspace) = w' := by simpa using h
      show ({ w with plan_type := v } : Workspace) = { w with plan_type := x }
      rw [validatePlanType_ok hv]

/-- Shape of the workspace produced by a successful `setattr` loop. -/
theorem applyWorkspaceUpdate_ok {w0 w' : Workspace} {t d p : Option String}
    {s : Option (List (String × String))} {c : Option Bool}
    (h : applyWorkspaceUpdate w0 t d p s c = Except.ok w') :
    w' = { w0 with
      title := t.elim w0.title pyStrip,
      description := d.elim w0.description
        (fun x => if x = "" then none else some (pyStrip x)),
      plan_type := p.elim w0.plan_type id,
      settings := s.elim w0.settings id,
      is_completed := c.elim w0.is_completed id } := by
  unfold applyWorkspaceUpdate at h
  cases h1 : setTitle w0 t with
  | error e => rw [h1] at h; exact absurd h (by simp)
  | ok w1 =>
    simp only [h1] at h
    cases h2 : setDescription w1 d with
    | error e => rw [h2] at h; exact absurd h (by simp)
    | ok w2 =>
      simp only [h2] at h
      cases h3 : setPlanType w2 p with
      | error e => rw [h3] at h; exact absurd h (by simp)
      | ok w3 =>
        simp only [h3] at h
        obtain rfl : setCompletedFlag (setSettings w3 s) c = w' := by simpa using h
        have e1 := setTitle_ok h1
        have e2 := setDescription_ok h2
        have e3 := setPlanType_ok h3
        subst e1 e2 e3
        cases t <;> cases d <;> cases p <;> cases s <;> cases c <;>
          simp [setSettings, setCompletedFlag, Option.elim]

/-- C1, counterexample: take an entity whose attributes are exactly `title`
and the filter field `title_like` carrying the non-null string `"Pro"`.  The
field name ends with the fuzzy suffix and its corresponding entity field
`title` exists, so the claim requires a case-insensitive substring condition on
`title`; the construction instead produces no condition at all, because
`hasattr(self.model, field)` is tested on the full name `title_like`, which is
absent from the entity. -/
theorem c1_counterexample :
    buildFilters ["title"] [("title_like", some (FVal.str "Pro"))] = Except.ok [] ∧
    pyEndsWith "title_like" "_like" = true ∧
    List.contains ["title"] "title" = true :=
  ⟨rfl, by decide, by decide⟩

/-- C1, amended: the generic filter construction processes filter fields in
order, and for each non-null value whose full (unstripped) name is an entity
attribute it emits one condition: a string value under a `_like`-ending name
yields the case-insensitive substring condition on the name with every
occurrence of `_like` removed when that stripped name is also an entity
attribute, and raises `AttributeError` (aborting the construction) when it is
not; any other value yields exact equality; a field whose full name is not an
entity attribute — even when its `_like`-stripped form is — contributes
nothing. -/
theorem c1_amended :
    (∀ (m : List String) (fs : List (String × Option FVal)),
        buildFilters m fs = seqConds (fieldCond m) fs) ∧
    (∀ (m : List String) (field s : String), m.contains field = true →
        pyEndsWith field "_like" = true →
        m.contains (pyReplace field "_like" "") = true →
        fieldCond m (field, some (FVal.str s)) =
          Except.ok (some (Cond.ilike (pyReplace field "_like" "") ("%" ++ s ++ "%")))) ∧
    (∀ (m : List String) (field s : String), m.contains field = true →
        pyEndsWith field "_like" = true →
        m.contains (pyReplace field "_like" "") = false →
        fieldCond m (field, some (FVal.str s)) = Except.error PyExc.attributeError) ∧
    (∀ (m : List String) (field : String) (v : FVal), m.contains field = true →
        (pyEndsWith field "_like" = false ∨ v.isStr = false) →
        fieldCond m (field, some v) = Except.ok (some (Cond.equal field v))) ∧
    (∀ (m : List String) (field : String) (v : Option FVal),
        m.contains field = false → fieldCond m (field, v) = Except.ok none) ∧
    (∀ (m : List String) (field : String), fieldCond m (field, none) = Except.ok none) := by
  refine ⟨?_, ?_, ?_, ?_, ?_, ?_⟩
  · intro m fs
    unfold buildFilters
    refine (foldlM_seqConds (fieldCond m) _ ?_ fs []).trans ?_
    · intro acc x
      rcases x with ⟨field, vo⟩
      cases vo with
      | none => simp [fieldCond]
      | some v =>
        by_cases hm : field ∈ m
        · cases v with
          | str s =>
            by_cases hl : pyEndsWith field "_like" = true
            · by_cases hm2 : pyReplace field "_like" "" ∈ m
              · simp [fieldCond, hm, hl, hm2, Option.toList]
              · simp [fieldCond, hm, hl, hm2]
            · simp [fieldCond, hm, hl, Option.toList]
          | nat k => simp [fieldCond, hm, Option.toList]
          | boolean b => simp [fieldCond, hm, Option.toList]
        · simp [fieldCond, hm]
    · cases hX : seqConds (fieldCond m) fs <;> simp [hX]
  · intro m field s hm hl hm2
    have hm' : field ∈ m := by simpa using hm
    have hm2' : pyReplace field "_like" "" ∈ m := by simpa using hm2
    simp [fieldCond, hm', hl, hm2']
  · intro m field s hm hl hm2
    have hm' : field ∈ m := by simpa using hm
    have hm2' : ¬ pyReplace field "_like" "" ∈ m := by simpa using hm2
    simp [fieldCond, hm', hl, hm2']
  · intro m field v hm hcase
    have hm' : field ∈ m := by simpa using hm
    cases v with
    | str s =>
      rcases hcase with hl | hstr
      · simp [fieldCond, hm', hl]
      · exact absurd hstr (by simp [FVal.isStr])
    | nat k => simp [fieldCond, hm']
    | boolean b => simp [fieldCond, hm']
  · intro m field v hm
    have hm' : ¬ field ∈ m := by simpa using hm
    cases v with
    | none => simp [fieldCond]
    | some v => simp [fieldCond, hm']
  · intro m field
    simp [fieldCond]

/-- C1, witness: the characterization evaluated at a small filter set over a
model owning `name_like`, `name`, and `workspace_id`, and the fuzzy branch on
its own — the stripped name `name` is an entity attribute, so the substring
condition on it is emitted rather than `AttributeError` raised. -/
theorem c1_witness :
    buildFilters ["name_like", "name", "workspace_id"]
        [("name_like", some (FVal.str "Core")), ("workspace_id", some (FVal.nat 3)),
          ("bogus", some (FVal.str "x")), ("owner_id", none)] =
      seqConds (fieldCond ["name_like", "name", "workspace_id"])
        [("name_like", some (FVal.str "Core")), ("workspace_id", some (FVal.nat 3)),
          ("bogus", some (FVal.str "x")), ("owner_id", none)] ∧
    fieldCond ["name_like", "name"] ("name_like", some (FVal.str "Core")) =
      Except.ok (some (Cond.ilike (pyReplace "name_like" "_like" "")
        ("%" ++ "Core" ++ "%"))) :=
  ⟨c1_amended.1 _ _, c1_amended.2.1 ["name_like", "name"] "name_like" "Core"
    (by decide) (by decide) (by decide)⟩

/-- C2: for a paginated query over `N` matching records with `per_page` in
`[1, 100]` and `page ≥ 1`, the returned envelope satisfies
`total_pages = ⌈N / per_page⌉`, `has_next ↔ page < total_pages`, and
`has_prev ↔ page > 1`. -/
theorem c2_pagination {α : Type} (N : Nat) (items : List α) (pg : PaginationParams)
    (r : PaginatedResult α) (hP1 : 1 ≤ pg.per_page) (hP2 : pg.per_page ≤ 100)
    (hpage : 1 ≤ pg.page)
    (h : executePaginatedQuery (Except.ok N) (Except.ok items) pg = Except.ok r) :
    (r.total_pages : ℤ) = ⌈(N : ℚ) / (pg.per_page : ℚ)⌉ ∧
    (r.has_next = true ↔ pg.page < r.total_pages) ∧
    (r.has_prev = true ↔ 1 < pg.page) := by
  have hr : (Except.ok (⟨items, N, pg.page, pg.per_page,
      (N + pg.per_page - 1) / pg.per_page⟩ : PaginatedResult α) :
      Except PyExc (PaginatedResult α)) = Except.ok r := h
  injection hr with h2
  subst h2
  refine ⟨natCeilDivQ N pg.per_page hP1, ?_, ?_⟩
  · simp [PaginatedResult.has_next]
  · simp [PaginatedResult.has_prev]

/-- C2, witness: five records at two per page give three pages, a next page
from page one, and no previous page. -/
theorem c2_witness :
    ((3 : Nat) : ℤ) = ⌈((5 : Nat) : ℚ) / ((2 : Nat) : ℚ)⌉ ∧
    ((⟨[], 5, 1, 2, 3⟩ : PaginatedResult Nat).has_next = true ↔ 1 < 3) ∧
    ((⟨[], 5, 1, 2, 3⟩ : PaginatedResult Nat).has_prev = true ↔ 1 < 1) :=
  c2_pagination 5 [] ⟨1, 2, "created_at", "desc"⟩ ⟨[], 5, 1, 2, 3⟩
    (by decide) (by decide) (by decide) rfl

/-- C8: when the persistence layer raises a `SQLAlchemyError` during either the
count query or the page fetch, the paginated query raises `DatabaseError` and
returns no envelope. -/
theorem c8_error_mapping {α : Type} (countRes : Except PyExc Nat)
    (fetchRes : Except PyExc (List α)) (pg : PaginationParams)
    (hc : ∀ e, countRes = Except.error e → isSQLAlchemyError e = true)
    (hf : ∀ e, fetchRes = Except.error e → isSQLAlchemyError e = true)
    (herr : (∃ e, countRes = Except.error e) ∨ (∃ e, fetchRes = Except.error e)) :
    executePaginatedQuery countRes fetchRes pg = Except.error PyExc.databaseError := by
  cases countRes with
  | error e =>
    have he := hc e rfl
    show (if isSQLAlchemyError e then Except.error PyExc.databaseError
      else Except.error e) = Except.error PyExc.databaseError
    simp [he]
  | ok n =>
    cases fetchRes with
    | error e =>
      have he := hf e rfl
      show (if isSQLAlchemyError e then Except.error PyExc.databaseError
        else Except.error e) = Except.error PyExc.databaseError
      simp [he]
    | ok l =>
      rcases herr with ⟨e, he⟩ | ⟨e, he⟩ <;> simp at he

/-- C8, witness: a failing count query surfaces as `DatabaseError`. -/
theorem c8_witness :
    executePaginatedQuery (Except.error PyExc.saOperationalError)
      (Except.ok ([] : List Nat)) ⟨1, 20, "created_at", "desc"⟩ =
      Except.error PyExc.databaseError :=
  c8_error_mapping (Except.error PyExc.saOperationalError) (Except.ok []) _
    (fun e he => by injection he with h2; rw [← h2]; rfl)
    (fun e he => by simp at he)
    (Or.inl ⟨PyExc.saOperationalError, rfl⟩)


/-- C3: the not-found leg of the claim is broken in the code.  For an absent
workspace id, `_check_workspace_exists` executes
`raise WorkspaceNotFoundError(message=..., workspace_id=...)`
(workspace_commands.py:191-194); a bare `Exception` subclass accepts no keyword
arguments, so that statement raises `TypeError`, which `except Exception` rolls
back and re-raises unchanged — the command does not fail with the not-found
kind, for either value of `force`, although its own docstring promises
`WorkspaceNotFoundError`.  The guard legs of the claim do hold, as the last two
equations show: a completed workspace without `force` is rejected with
`WorkspacePermissionError` and the stores are returned unchanged, and with
`force = true` the same deletion succeeds. -/
theorem c3_notfound_typeerror_bug :
    deleteWorkspaceCmd [] [] 1 false = (([], []), some PyExc.typeError) ∧
    deleteWorkspaceCmd [] [] 1 true = (([], []), some PyExc.typeError) ∧
    deleteWorkspaceCmd [⟨some 1, "W", [], "free", none, true, 0, 0⟩] [] 1 false =
      (([⟨some 1, "W", [], "free", none, true, 0, 0⟩], []),
        some PyExc.workspacePermission) ∧
    deleteWorkspaceCmd [⟨some 1, "W", [], "free", none, true, 0, 0⟩] [] 1 true =
      (([], []), none) ∧
    PyExc.typeError ≠ PyExc.workspaceNotFound :=
  ⟨rfl, rfl, rfl, rfl, by decide⟩

/-- C4, counterexample: a PATCH body whose `description` field is explicitly
`null` on a workspace whose stored description is `"old"`.  The claim says an
explicitly-null field counts as supplied — the description should become null,
distinguished from omission.  Instead `exclude_unset` passes the `None`
through, the command's `is not None` guards drop it, the stored description
stays `"old"`, and the explicit-null request is indistinguishable from the
all-omitted request. -/
theorem c4_counterexample :
    routeUpdateWorkspace [⟨some 1, "Old", [], "free", some "old", false, 0, 5⟩] 1
        PatchField.unset PatchField.null PatchField.unset PatchField.unset
        PatchField.unset 10 =
      Except.ok ([⟨some 1, "Old", [], "free", some "old", false, 0, 5⟩],
        ⟨some 1, "Old", [], "free", some "old", false, 0, 5⟩) ∧
    routeUpdateWorkspace [⟨some 1, "Old", [], "free", some "old", false, 0, 5⟩] 1
        PatchField.unset PatchField.null PatchField.unset PatchField.unset
        PatchField.unset 10 =
      routeUpdateWorkspace [⟨some 1, "Old", [], "free", some "old", false, 0, 5⟩] 1
        PatchField.unset PatchField.unset PatchField.unset PatchField.unset
        PatchField.unset 10 ∧
    some "old" ≠ (none : Option String) :=
  ⟨rfl, rfl, by simp⟩

/-- C4, amended: fields omitted from the update retain their prior values, and
fields supplied with a non-null value are changed to the supplied value after
validator normalization (title and description stripped, empty description
stored as null); a field explicitly set to null is treated exactly like an
omitted field, not distinguished from it. -/
theorem c4_amended :
    (∀ (db : List Workspace) (wid : Nat) (t d p : Option String)
        (s : Option (List (String × String))) (c : Option Bool) (now : Nat)
        (w0 : Workspace) (db2 : List Workspace) (w2 : Workspace),
        db.find? (fun w => w.id == some wid) = some w0 →
        updateWorkspaceCmd db wid t d p s c now = Except.ok (db2, w2) →
        w2.title = t.elim w0.title pyStrip ∧
        w2.description = d.elim w0.description
          (fun x => if x = "" then none else some (pyStrip x)) ∧
        w2.plan_type = p.elim w0.plan_type id ∧
        w2.settings = s.elim w0.settings id ∧
        w2.is_completed = c.elim w0.is_completed id) ∧
    (∀ (db : List Workspace) (wid now : Nat),
        routeUpdateWorkspace db wid PatchField.null PatchField.null PatchField.null
            PatchField.null PatchField.null now =
          routeUpdateWorkspace db wid PatchField.unset PatchField.unset
            PatchField.unset PatchField.unset PatchField.unset now) := by
  constructor
  · intro db wid t d p s c now w0 db2 w2 hfind h
    unfold updateWorkspaceCmd at h
    simp only [hfind] at h
    cases happ : applyWorkspaceUpdate w0 t d p s c with
    | error e =>
      simp only [happ] at h
      cases e <;> simp [mapWorkspaceExc] at h
    | ok w' =>
      simp only [happ] at h
      simp at h
      obtain ⟨hdb, hw⟩ := h
      have hw' := applyWorkspaceUpdate_ok happ
      subst hw'
      subst hw
      refine ⟨?_, ?_, ?_, ?_, ?_⟩ <;> (split <;> rfl)
  · intro db wid now
    rfl

/-- C4, witness: updating only the title leaves description, plan, settings,
and completion flag untouched while the title is stripped into place. -/
theorem c4_witness :
    (⟨some 1, "New", [], "free", some "keep", false, 0, 9⟩ : Workspace).title =
      (some "New" : Option String).elim "Old" pyStrip ∧
    (⟨some 1, "New", [], "free", some "keep", false, 0, 9⟩ : Workspace).description =
      (none : Option String).elim (some "keep")
        (fun x => if x = "" then none else some (pyStrip x)) ∧
    (⟨some 1, "New", [], "free", some "keep", false, 0, 9⟩ : Workspace).plan_type =
      (none : Option String).elim "free" id ∧
    (⟨some 1, "New", [], "free", some "keep", false, 0, 9⟩ : Workspace).settings =
      (none : Option (List (String × String))).elim [] id ∧
    (⟨some 1, "New", [], "free", some "keep", false, 0, 9⟩ : Workspace).is_completed =
      (none : Option Bool).elim false id :=
  c4_amended.1 [⟨some 1, "Old", [], "free", some "keep", false, 0, 5⟩] 1 (some "New")
    none none none none 9 ⟨some 1, "Old", [], "free", some "keep", false, 0, 5⟩
    [⟨some 1, "New", [], "free", some "keep", false, 0, 9⟩]
    ⟨some 1, "New", [], "free", some "keep", false, 0, 9⟩ rfl rfl

/-- C5, counterexample: the workspace update is invoked supplying a title equal
to the stored one — no field changes — yet `updated_at` is refreshed from 5 to
the clock reading 10, because the stamp is gated on `update_data` being
non-empty (a field was supplied), not on anything having changed.  The team
update never exhibits the claimed behavior at any input: every `update_team`
call raises `AttributeError` at the nonexistent `get_by_id`. -/
theorem c5_counterexample :
    updateWorkspaceCmd [⟨some 1, "T", [], "free", none, false, 0, 5⟩] 1 (some "T")
        none none none none 10 =
      Except.ok ([⟨some 1, "T", [], "free", none, false, 0, 10⟩],
        ⟨some 1, "T", [], "free", none, false, 0, 10⟩) ∧
    updateTeamCmd [⟨some 1, 2, 3, "T", none, [], true, 0, 5⟩] 1 (some "New")
        none none none 10 = Except.error PyExc.attributeError ∧
    (10 : Nat) ≠ 5 :=
  ⟨rfl, rfl, by decide⟩

/-- C5, amended: the workspace update leaves the record (and `updated_at`)
completely unchanged when no field is supplied, and stamps `updated_at` with
the clock reading when at least one field is supplied — even when the supplied
value equals the stored one, so the gate is "supplied", not "changed"; whenever
the stamp is applied with a clock reading later than the stored timestamp,
`updated_at` strictly increases; the team update refreshes nothing on any
input, because every invocation raises `AttributeError` at the nonexistent
repository lookup before reaching its unconditional stamp. -/
theorem c5_amended :
    (∀ (db : List Workspace) (wid now : Nat) (w0 : Workspace)
        (db2 : List Workspace) (w2 : Workspace),
        db.find? (fun w => w.id == some wid) = some w0 →
        updateWorkspaceCmd db wid none none none none none now = Except.ok (db2, w2) →
        w2 = w0) ∧
    (∀ (db : List Workspace) (wid : Nat) (t d p : Option String)
        (s : Option (List (String × String))) (c : Option Bool) (now : Nat)
        (db2 : List Workspace) (w2 : Workspace),
        (t.isSome || d.isSome || p.isSome || s.isSome || c.isSome) = true →
        updateWorkspaceCmd db wid t d p s c now = Except.ok (db2, w2) →
        w2.updated_at = now) ∧
    (∀ (db : List Team) (tid : Nat) (n d : Option String)
        (s : Option (List (String × String))) (a : Option Bool) (now : Nat),
        updateTeamCmd db tid n d s a now = Except.error PyExc.attributeError) ∧
    (∀ (db : List Workspace) (wid : Nat) (t d p : Option String)
        (s : Option (List (String × String))) (c : Option Bool) (now : Nat)
        (w0 : Workspace) (db2 : List Workspace) (w2 : Workspace),
        db.find? (fun w => w.id == some wid) = some w0 →
        (t.isSome || d.isSome || p.isSome || s.isSome || c.isSome) = true →
        updateWorkspaceCmd db wid t d p s c now = Except.ok (db2, w2) →
        w0.updated_at < now → w0.updated_at < w2.updated_at) := by
  have hstamp : ∀ (db : List Workspace) (wid : Nat) (t d p : Option String)
      (s : Option (List (String × String))) (c : Option Bool) (now : Nat)
      (db2 : List Workspace) (w2 : Workspace),
      (t.isSome || d.isSome || p.isSome || s.isSome || c.isSome) = true →
      updateWorkspaceCmd db wid t d p s c now = Except.ok (db2, w2) →
      w2.updated_at = now := by
    intro db wid t d p s c now db2 w2 hU h
    unfold updateWorkspaceCmd at h
    cases hfind : db.find? (fun w => w.id == some wid) with
    | none => rw [hfind] at h; exact absurd h (by simp)
    | some w0 =>
      simp only [hfind] at h
      cases happ : applyWorkspaceUpdate w0 t d p s c with
      | error e =>
        simp only [happ] at h
        cases e <;> simp [mapWorkspaceExc] at h
      | ok w' =>
        simp only [happ] at h
        simp [hU] at h
        obtain ⟨hdb, hw⟩ := h
        subst hw
        rfl
  refine ⟨?_, hstamp, ?_, ?_⟩
  · intro db wid now w0 db2 w2 hfind h
    simp only [updateWorkspaceCmd] at h
    rw [hfind] at h
    have h2 : (Except.ok (db.map fun x => if x.id == some wid then w0 else x, w0) :
        Except PyExc (List Workspace × Workspace)) = Except.ok (db2, w2) := h
    have h3 : db2 = (db.map fun x => if x.id == some wid then w0 else x) ∧ w2 = w0 := by
      simpa using h2.symm
    exact h3.2
  · intro db tid n d s a now
    rfl
  · intro db wid t d p s c now w0 db2 w2 hfind hU h hlt
    rw [hstamp db wid t d p s c now db2 w2 hU h]
    exact hlt

/-- C5, witness: the workspace stamp clause at a concrete single-field
update. -/
theorem c5_witness :
    (⟨some 1, "New", [], "free", none, false, 0, 9⟩ : Workspace).updated_at = 9 :=
  c5_amended.2.1 [⟨some 1, "Old", [], "free", none, false, 0, 5⟩] 1 (some "New")
    none none none none 9 [⟨some 1, "New", [], "free", none, false, 0, 9⟩]
    ⟨some 1, "New", [], "free", none, false, 0, 9⟩ rfl rfl

/-- C6: the claim requires every created entity to carry a non-null identifier,
but `create_team` constructs `Team(...)` without an id and the `teams.id`
column has no default, so the returned team's identifier is null (the flush
INSERT would violate the primary-key constraint at the persistence layer).
`CreateWorkspaceCommand` by contrast assigns `uuid4()` — the second conjunct
shows the workspace path returning the assigned id with both timestamp
parameters stored as given. -/
theorem c6_create_id_bug :
    (createTeamCmd [] 1 2 "Engineering" none none 5 5).toOption.map
        (fun r => r.2.id) = some none ∧
    createWorkspaceCmd [] 7 "W" none false "free" none 5 5 =
      Except.ok ([⟨some 7, "W", [], "free", none, false, 5, 5⟩],
        ⟨some 7, "W", [], "free", none, false, 5, 5⟩) :=
  ⟨rfl, rfl⟩

/-- C7: the team delete can never map a referential-integrity violation to
`DatabaseError`: it raises `AttributeError` at the nonexistent
`self._repository.get_by_id` (team_commands.py:83) before any DELETE, and that
exception — not matching the `sqlite3.IntegrityError` its first `except`
clause names — is rolled back and re-raised unchanged by `except Exception`.
The workspace delete does map the violation (a team still referencing the
workspace) to `DatabaseError` after rollback, as the claim says. -/
theorem c7_integrity_mapping_bug :
    deleteWorkspaceCmd [⟨some 1, "W", [], "free", none, false, 0, 0⟩]
        [⟨some 7, 1, 2, "T", none, [], true, 0, 0⟩] 1 false =
      (([⟨some 1, "W", [], "free", none, false, 0, 0⟩],
        [⟨some 7, 1, 2, "T", none, [], true, 0, 0⟩]), some PyExc.databaseError) ∧
    deleteTeamCmd [⟨some 7, 1, 2, "T", none, [], true, 0, 0⟩]
        [⟨some 9, 7, 3, "member", [], 0, 0⟩] 7 false =
      (([⟨some 7, 1, 2, "T", none, [], true, 0, 0⟩],
        [⟨some 9, 7, 3, "member", [], 0, 0⟩]), some PyExc.attributeError) ∧
    PyExc.attributeError ≠ PyExc.databaseError :=
  ⟨rfl, rfl, by decide⟩

/-- C9: neither membership operation can perform the claimed behavior.
`add_team_member` calls the nonexistent `self._repository.get_by_id`
(team_commands.py:133) and `remove_team_member` reads the nonexistent
attribute `self._repository.queries` (team_commands.py:191), so both raise
`AttributeError` on every invocation — never `NotFoundException`, with no
membership edge ever constructed or deleted — whether or not the team or the
edge exists in the store. -/
theorem c9_membership_attributeerror_bug :
    addTeamMember [⟨some 7, 1, 2, "T", none, [], true, 0, 0⟩] [] 7 3 =
      Except.error PyExc.attributeError ∧
    addTeamMember [] [] 7 3 = Except.error PyExc.attributeError ∧
    removeTeamMember [⟨some 9, 7, 3, "member", [], 0, 0⟩] 7 3 =
      Except.error PyExc.attributeError ∧
    removeTeamMember [] 7 3 = Except.error PyExc.attributeError ∧
    PyExc.attributeError ≠ PyExc.notFoundException :=
  ⟨rfl, rfl, rfl, rfl, by decide⟩

/-- C10: a team-member role is lowercased and stripped before the membership
test, so every case or whitespace variant of a valid role is accepted and
stored in normalized lowercase form; a workspace-member role gets no
normalization — it is accepted exactly when it is literally one of
`owner`, `admin`, `member` (so `"Admin"` is rejected there). -/
theorem c10_role_normalization :
    (∀ s : String, pyStrip s ≠ "" →
        pyStrip (pyLower s) ∈ ["admin", "member", "guest"] →
        validateTeamRole s = Except.ok (pyStrip (pyLower s))) ∧
    (∀ s : String, validateWorkspaceRole s =
        if s ∈ ["owner", "admin", "member"] then Except.ok s
        else Except.error PyExc.valueError) ∧
    validateWorkspaceRole "Admin" = Except.error PyExc.valueError := by
  refine ⟨?_, ?_, rfl⟩
  · intro s h1 h2
    unfold validateTeamRole
    rw [if_neg, if_pos h2]
    rintro (rfl | hs)
    · exact h1 rfl
    · exact h1 hs
  · intro s
    rfl

/-- C10, witness: the whitespace-and-case variant `" ADMIN "` of the team role
`admin` is accepted and stored as `admin`. -/
theorem c10_witness : validateTeamRole " ADMIN " = Except.ok "admin" :=
  c10_role_normalization.1 " ADMIN " (by decide) (by decide)

end TaskMan
